import Mathlib

/-!
Shallow embedding of the Organ Attack rules engine
(src/game/models.py, src/game/player.py, src/game/cards.py,
src/game/engine.py), together with theorems settling the behavioural
claims about it.

Modelling conventions:
- Python `Optional[T]` becomes `Option T`; Python truthiness of an
  optional string (`None` and `""` are falsy) is `strTruthy`.
- Python dataclasses become structures; dataclass `==` is the derived
  structural `DecidableEq`.
- `Player.organs : Dict[str, OrganCard]` becomes an association list
  in insertion order (dict keys are the distinct organ-type names).
- The engine's ambient randomness (`random.shuffle`, `random.sample`,
  `random.choice`) is made explicit: the shuffle function is a field of
  the engine state, the sampled organ set and the coin-flip stream are
  parameters.  This matches spec section 9, which requires injectable
  randomness.
- Mutation of `self` / aliased `Player` objects becomes explicit state
  passing; players are addressed by their index in `Engine.players`.
- The event log, `active_effects` (never read or written by any rule
  code), the save manager and the logger are observability/persistence
  collaborators outside the rules engine and are not modelled.
- `models.py` as shipped declares only `PLAY` and `DONE` in its
  `GameState` enum.  `engine.py` also references `GameState.SETUP`,
  `DRAW`, `DEFEND`, `DISCARD`, `NEXT_TURN` and `GAME_OVER`; in Python
  each such access raises `AttributeError`.  The embedding keeps the
  enum exactly as models.py declares it and models every access to a
  missing member as a `PyError.attributeError`; a method whose Python
  body can raise returns its (possibly mutated, since object mutations
  persist when an exception propagates) engine state together with an
  `Except PyError` result.  Code past such a raise is dead in the
  shipped program and is omitted, with the omission noted on each
  definition.
-/

namespace OrganAttack

/-- models.py CardType. -/
inductive CardType where
  | ORGAN
  | ATTACK
  | DEFENSE
  | ACTION
  | WILDCARD
deriving DecidableEq, Repr

/-- models.py CardType values; engine.py dispatches on `card.type.value`. -/
def CardType.value : CardType → String
  | .ORGAN => "Organ"
  | .ATTACK => "Attack"
  | .DEFENSE => "Defense"
  | .ACTION => "Action"
  | .WILDCARD => "Wildcard"

/-- The Python exceptions the engine code can raise: `ValueError` from
`GameEngine.__init__`, and `AttributeError` from every access to a
`GameState` member that models.py's enum does not declare. -/
inductive PyError where
  | valueError (msg : String)
  | attributeError (attr : String)
deriving DecidableEq, Repr

/-- models.py GameState, exactly as shipped: only `PLAY` and `DONE`.
engine.py also writes `GameState.SETUP`, `DRAW`, `DEFEND`, `DISCARD`,
`NEXT_TURN` and `GAME_OVER`; since the enum does not declare them, each
such access raises `AttributeError` in Python, modelled as
`PyError.attributeError` at every place engine.py evaluates one. -/
inductive GameState where
  | PLAY
  | DONE
deriving DecidableEq, Repr

/-- models.py PlayerStatus. -/
inductive PlayerStatus where
  | ACTIVE
  | ELIMINATED
deriving DecidableEq, Repr

/-- models.py OrganType. -/
inductive OrganType where
  | HEART
  | BRAIN
  | LUNGS
  | KIDNEYS
  | EYES
  | LIVER
  | STOMACH
  | INTESTINES
  | BLADDER
  | BOWELS
  | PANCREAS
  | SPLEEN
  | APPENDIX
  | TONGUE
  | TONSILS
  | THYROID
  | TEETH
  | GALLBLADDER
  | ESOPHAGUS
deriving DecidableEq, Repr

/-- models.py OrganType values. -/
def OrganType.value : OrganType → String
  | .HEART => "Heart"
  | .BRAIN => "Brain"
  | .LUNGS => "Lungs"
  | .KIDNEYS => "Kidneys"
  | .EYES => "Eyes"
  | .LIVER => "Liver"
  | .STOMACH => "Stomach"
  | .INTESTINES => "Intestines"
  | .BLADDER => "Bladder"
  | .BOWELS => "Bowels"
  | .PANCREAS => "Pancreas"
  | .SPLEEN => "Spleen"
  | .APPENDIX => "Appendix"
  | .TONGUE => "Tongue"
  | .TONSILS => "Tonsils"
  | .THYROID => "Thyroid"
  | .TEETH => "Teeth"
  | .GALLBLADDER => "Gallbladder"
  | .ESOPHAGUS => "Esophagus"

/-- models.py CardTarget. -/
structure CardTarget where
  organ_type : Option String := none
  scope : String := "Single"
  player_scope : String := "Other"
  organ_scope : String := "Single"
  flexible : Bool := false
deriving DecidableEq, Repr

/-- models.py CardConditions. -/
structure CardConditions where
  organ_must_be_present : Bool := false
  organ_must_not_be_protected : Bool := false
  target_organ_must_be_present : Bool := false
  player_must_have_available_slot : Bool := false
  must_be_played_in_response_or_attack_phase : Bool := false
deriving DecidableEq, Repr

/-- models.py CardEffect. -/
structure CardEffect where
  action : String
  target_organ : Option String := none
  duration : String := "instant"
  value : Option Int := none
  mimic_type : Option String := none
  from_target : Option String := none
  to_target : Option String := none
deriving DecidableEq, Repr

/-- models.py Card. -/
structure Card where
  id : String
  name : String
  type : CardType
  description : String
  target : Option CardTarget := none
  conditions : Option CardConditions := none
  effects : List CardEffect := []
  organ_type : Option String := none
  is_vital : Bool := false
  can_be_protected : Bool := true
deriving DecidableEq, Repr

/-- models.py OrganCard (Card plus per-instance organ status; its
`__post_init__` forces `type = ORGAN`). -/
structure OrganCard where
  id : String
  name : String
  type : CardType := CardType.ORGAN
  description : String
  organ_type : String
  is_vital : Bool := false
  can_be_protected : Bool := true
  is_removed : Bool := false
  is_protected : Bool := false
  protection_source : Option String := none
deriving DecidableEq, Repr

/-- Python truthiness of an `Optional[str]`: `None` and `""` are falsy. -/
def strTruthy : Option String → Bool
  | none => false
  | some s => !s.isEmpty

/-- player.py Player.  `organs` is the `Dict[str, OrganCard]` as an
association list in insertion order. -/
structure Player where
  name : String
  organs : List (String × OrganCard) := []
  hand : List Card := []
  status : PlayerStatus := PlayerStatus.ACTIVE
  cards_played_this_turn : Nat := 0
  cards_drawn_this_turn : Nat := 0
  can_draw_extra : Bool := false
  skip_next_turn : Bool := false
deriving DecidableEq, Repr

/-- Resolution of a missing player reference (`players[i]` is never out of
range in the Python source, where players are passed as live objects). -/
def defaultPlayer : Player :=
  { name := "" }

instance : Inhabited Player := ⟨defaultPlayer⟩

/-- player.py vital_organs_list. -/
def vital_organs_list : List OrganType :=
  [OrganType.HEART, OrganType.BRAIN, OrganType.LIVER,
   OrganType.KIDNEYS, OrganType.LUNGS, OrganType.STOMACH]

/-- The organ card built for one sampled organ type in
`Player._initialize_organs`. -/
def mkOrganCard (t : OrganType) : OrganCard :=
  { id := "organ_" ++ t.value.toLower
    name := t.value
    type := CardType.ORGAN
    description := "Essential " ++ t.value.toLower ++ " organ."
    organ_type := t.value
    is_vital := vital_organs_list.contains t
    can_be_protected := true }

/-- player.py Player construction with an empty organ mapping:
`__post_init__` runs `_initialize_organs`, which deals the 6 organ types
drawn by `random.sample`; the sample is the explicit `chosen` parameter. -/
def Player.init (name : String) (chosen : List OrganType) : Player :=
  { name := name
    organs := chosen.map (fun t => (t.value, mkOrganCard t)) }

/-- player.py Player.add_card_to_hand. -/
def Player.add_card_to_hand (p : Player) (card : Card) : Player :=
  { p with hand := p.hand ++ [card] }

/-- Dict lookup `self.organs[organ_type]` / `organ_type in self.organs`. -/
def Player.lookupOrgan (p : Player) (t : String) : Option OrganCard :=
  (p.organs.find? (fun kv => kv.1 = t)).map (fun kv => kv.2)

/-- player.py Player.has_organ. -/
def Player.has_organ (p : Player) (t : String) : Bool :=
  match p.lookupOrgan t with
  | some o => !o.is_removed
  | none => false

/-- player.py Player.get_available_organs. -/
def Player.get_available_organs (p : Player) : List OrganCard :=
  (p.organs.filter (fun kv => !kv.2.is_removed)).map (fun kv => kv.2)

/-- `organs_remaining` as reported by Player.get_status_summary. -/
def Player.organs_remaining (p : Player) : Nat :=
  p.get_available_organs.length

/-- player.py Player._check_elimination. -/
def Player.check_elimination (p : Player) : Player :=
  if p.get_available_organs.isEmpty then
    { p with status := PlayerStatus.ELIMINATED }
  else p

/-- The in-place update `self.organs[organ_type].is_removed = True`. -/
def Player.setOrganRemoved (p : Player) (t : String) : Player :=
  { p with organs := p.organs.map (fun kv =>
      if kv.1 = t then (kv.1, { kv.2 with is_removed := true }) else kv) }

/-- player.py Player.remove_organ (returns the mutated player and the
Python return value). -/
def Player.remove_organ (p : Player) (t : String) : Player × Bool :=
  if p.has_organ t then
    (((p.setOrganRemoved t).check_elimination), true)
  else (p, false)

/-- player.py Player.protect_organ. -/
def Player.protect_organ (p : Player) (t : String) (protection_source : String) :
    Player × Bool :=
  if p.has_organ t then
    match p.lookupOrgan t with
    | some o =>
        if o.can_be_protected then
          ({ p with organs := p.organs.map (fun kv =>
              if kv.1 = t then
                (kv.1, { kv.2 with is_protected := true,
                                   protection_source := some protection_source })
              else kv) }, true)
        else (p, false)
    | none => (p, false)
  else (p, false)

/-- player.py Player.unprotect_organ. -/
def Player.unprotect_organ (p : Player) (t : String) : Player × Bool :=
  if p.has_organ t then
    match p.lookupOrgan t with
    | some o =>
        if o.is_protected then
          ({ p with organs := p.organs.map (fun kv =>
              if kv.1 = t then
                (kv.1, { kv.2 with is_protected := false,
                                   protection_source := none })
              else kv) }, true)
        else (p, false)
    | none => (p, false)
  else (p, false)

/-- player.py Player.is_organ_protected. -/
def Player.is_organ_protected (p : Player) (t : String) : Bool :=
  if p.has_organ t then
    match p.lookupOrgan t with
    | some o => o.is_protected
    | none => false
  else false

/-- player.py Player.is_eliminated. -/
def Player.is_eliminated (p : Player) : Bool :=
  p.status = PlayerStatus.ELIMINATED

/-- player.py Player.get_cards_by_type. -/
def Player.get_cards_by_type (p : Player) (card_type : CardType) : List Card :=
  p.hand.filter (fun c => c.type = card_type)

/-- player.py Player.needs_to_discard (default hand limit 5). -/
def Player.needs_to_discard (p : Player) (hand_limit : Nat := 5) : Bool :=
  p.hand.length > hand_limit

/-- The pending attack dict stored in `GameEngine.current_attack`;
the Python dict holds live references to the attacker and the target,
modelled as indices into `Engine.players`. -/
structure AttackContext where
  card : Card
  attacker : Nat
  target_player : Nat
  target_organ : String
deriving DecidableEq, Repr

/-- engine.py GameEngine state.  `shuffle` is the explicit stand-in for
`random.shuffle` and `rand_coins` for the `random.choice` stream of the
test-luck effect (spec section 9 requires injectable randomness).
`game_state` has the field's declared type from models.py; no shipped
code path ever assigns it (the constructor raises at engine.py:27
first), so `Engine` values here are the hypothetical states over which
the methods are specified. -/
structure Engine where
  players : List Player
  current_player_index : Nat := 0
  game_state : GameState := GameState.PLAY
  turn_direction : Int := 1
  deck : List Card := []
  discard_pile : List Card := []
  turn_count : Nat := 0
  winner : Option Nat := none
  current_attack : Option AttackContext := none
  pending_defense : Bool := false
  shuffle : List Card → List Card := id
  rand_coins : List String := []

/-- Point update of a list, for mutation of `self.players[i]` through an
aliased `Player` reference. -/
def updateAt {α : Type} : List α → Nat → (α → α) → List α
  | [], _, _ => []
  | x :: xs, 0, f => f x :: xs
  | x :: xs, n + 1, f => x :: updateAt xs n f

/-- engine.py GameEngine._reshuffle_deck. -/
def Engine.reshuffle_deck (e : Engine) : Engine :=
  if e.discard_pile.isEmpty then e
  else { e with deck := e.shuffle e.discard_pile, discard_pile := [] }

/-- engine.py GameEngine._draw_card: reshuffles first when the deck is
empty, then pops the last element of the deck. -/
def Engine.draw_card (e : Engine) : Engine × Option Card :=
  let e1 := if e.deck.isEmpty then e.reshuffle_deck else e
  if e1.deck.isEmpty then (e1, none)
  else ({ e1 with deck := e1.deck.dropLast }, e1.deck.getLast?)

/-- engine.py GameEngine.draw_card_for_player. -/
def Engine.draw_card_for_player (e : Engine) (pIdx : Nat) : Engine × Option Card :=
  let r := e.draw_card
  match r.2 with
  | some card =>
      ({ r.1 with players := updateAt r.1.players pIdx (fun p =>
                      { p.add_card_to_hand card with
                          cards_drawn_this_turn := p.cards_drawn_this_turn + 1 }) },
       some card)
  | none => (r.1, none)

/-- engine.py GameEngine._discard_card. -/
def Engine.discard_card (e : Engine) (card : Card) : Engine :=
  { e with discard_pile := e.discard_pile ++ [card] }

/-- The result record (a Python dict) returned by one effect resolver of
cards.py CardEffectProcessor; keys absent from a given dict are `none` /
`false` here. -/
structure EffectResult where
  success : Bool
  action : Option String := none
  error : Option String := none
  blocked : Bool := false
  reason : Option String := none
  target : Option String := none
  player : Option String := none
  count : Option Int := none
  coin : Option String := none
  organ_destroyed : Option Bool := none
  target_player : Option String := none
  target_organ : Option String := none
deriving DecidableEq, Repr

/-- cards.py CardEffectProcessor._remove_organ_effect. -/
def Engine.remove_organ_effect (e : Engine) (_eff : CardEffect) (_pIdx : Nat)
    (tp : Option Nat) (torg : Option String) : Engine × EffectResult :=
  if !(tp.isSome && strTruthy torg) then
    (e, { success := false, error := some "Missing target for organ removal" })
  else
    let tIdx := tp.getD 0
    let organ := torg.getD ""
    let target := e.players.getD tIdx defaultPlayer
    if target.is_organ_protected organ then
      (e, { success := false, blocked := true, reason := some "Organ is protected" })
    else
      ({ e with players := updateAt e.players tIdx
                     (fun p => (p.remove_organ organ).1) },
       { success := (target.remove_organ organ).2
         action := some "remove_organ"
         target := some organ
         player := some target.name })

/-- cards.py CardEffectProcessor._protect_organ_effect. -/
def Engine.protect_organ_effect (e : Engine) (eff : CardEffect) (pIdx : Nat)
    (tp : Option Nat) (torg : Option String) (card : Card) : Engine × EffectResult :=
  let tIdx := match tp with
    | some i => i
    | none => pIdx
  let organ_type := if strTruthy torg then torg else eff.target_organ
  if !strTruthy organ_type then
    (e, { success := false, error := some "No target organ specified" })
  else
    let organ := organ_type.getD ""
    let actor := e.players.getD pIdx defaultPlayer
    let protection_source :=
      if eff.action.toLower = "protect_organ" && card.name.toLower = "vaccination"
      then "Vaccination" else "Protected by " ++ actor.name
    let target := e.players.getD tIdx defaultPlayer
    ({ e with players := updateAt e.players tIdx
                   (fun p => (p.protect_organ organ protection_source).1) },
     { success := (target.protect_organ organ protection_source).2
       action := some "protect_organ"
       target := some organ
       player := some target.name })

/-- cards.py CardEffectProcessor._block_attack_effect. -/
def Engine.block_attack_effect (e : Engine) (_eff : CardEffect) (pIdx : Nat) :
    Engine × EffectResult :=
  (e, { success := true, action := some "block_attack"
        player := some (e.players.getD pIdx defaultPlayer).name })

/-- cards.py CardEffectProcessor._steal_organ_effect. -/
def Engine.steal_organ_effect (e : Engine) (_eff : CardEffect) (_pIdx : Nat)
    (tp : Option Nat) (torg : Option String) : Engine × EffectResult :=
  if !(tp.isSome && strTruthy torg) then
    (e, { success := false, error := some "Missing target for organ steal" })
  else
    (e, { success := false, error := some "Organ stealing not fully implemented" })

/-- The body of the `for _ in range(draw_count)` loop in
cards.py `_draw_cards_effect`: draw via `draw_card_for_player`, stop
early (`break`) when no card could be drawn. -/
def Engine.draw_loop (pIdx : Nat) : Nat → Engine → Engine
  | 0, e => e
  | n + 1, e =>
      let r := e.draw_card_for_player pIdx
      match r.2 with
      | some _ => Engine.draw_loop pIdx n r.1
      | none => r.1

/-- cards.py CardEffectProcessor._draw_cards_effect.  Note the reported
`count` field is `draw_count` (`effect.value or 1`), computed before the
loop runs. -/
def Engine.draw_cards_effect (e : Engine) (eff : CardEffect) (pIdx : Nat) :
    Engine × EffectResult :=
  let draw_count : Int := match eff.value with
    | none => 1
    | some v => if v = 0 then 1 else v
  let e1 := Engine.draw_loop pIdx draw_count.toNat e
  (e1, { success := true
         action := some "draw_cards"
         count := some draw_count
         player := some (e1.players.getD pIdx defaultPlayer).name })

/-- cards.py CardEffectProcessor._skip_turn_effect. -/
def Engine.skip_turn_effect (e : Engine) (_eff : CardEffect) (tp : Option Nat) :
    Engine × EffectResult :=
  match tp with
  | some tIdx =>
      ({ e with players := updateAt e.players tIdx
                     (fun p => { p with skip_next_turn := true }) },
       { success := true, action := some "skip_turn"
         player := some (e.players.getD tIdx defaultPlayer).name })
  | none => (e, { success := false, error := some "No target player for skip turn" })

/-- cards.py CardEffectProcessor._test_luck_effect; the `random.choice`
coin is consumed from the injected `rand_coins` stream. -/
def Engine.test_luck_effect (e : Engine) (_eff : CardEffect) (_pIdx : Nat)
    (tp : Option Nat) (torg : Option String) : Engine × EffectResult :=
  let coin := e.rand_coins.headD "heads"
  let e0 := { e with rand_coins := e.rand_coins.tail }
  if coin = "tails" && tp.isSome && strTruthy torg then
    let tIdx := tp.getD 0
    let organ := torg.getD ""
    let target := e0.players.getD tIdx defaultPlayer
    ({ e0 with players := updateAt e0.players tIdx
                    (fun p => (p.remove_organ organ).1) },
     { success := true, action := some "test_luck", coin := some coin
       organ_destroyed := some (target.remove_organ organ).2
       target_player := some target.name
       target_organ := torg })
  else
    (e0, { success := true, action := some "test_luck", coin := some coin })

/-- cards.py CardEffectProcessor._process_single_effect (dispatch on the
free-form action string; unknown actions yield a failure record). -/
def Engine.process_single_effect (e : Engine) (eff : CardEffect) (card : Card)
    (pIdx : Nat) (tp : Option Nat) (torg : Option String) : Engine × EffectResult :=
  if eff.action = "remove_organ" then e.remove_organ_effect eff pIdx tp torg
  else if eff.action = "protect_organ" then e.protect_organ_effect eff pIdx tp torg card
  else if eff.action = "block_attack" then e.block_attack_effect eff pIdx
  else if eff.action = "steal_organ" then e.steal_organ_effect eff pIdx tp torg
  else if eff.action = "draw_cards" then e.draw_cards_effect eff pIdx
  else if eff.action = "skip_turn" then e.skip_turn_effect eff tp
  else if eff.action = "test_luck" then e.test_luck_effect eff pIdx tp torg
  else (e, { success := false, error := some ("Unknown action: " ++ eff.action) })

/-- cards.py CardEffectProcessor.process_card_effects: apply the card's
effect list in order, collecting one result per effect. -/
def Engine.process_card_effects (e : Engine) (card : Card) (pIdx : Nat)
    (tp : Option Nat) (torg : Option String) : Engine × List EffectResult :=
  card.effects.foldl
    (fun acc eff =>
      let r := Engine.process_single_effect acc.1 eff card pIdx tp torg
      (r.1, acc.2 ++ [r.2]))
    (e, ([] : List EffectResult))

/-- The result dict returned by engine.py GameEngine.play_card and its
card-type handlers; keys absent from a given dict are `none`/`false`. -/
structure PlayResult where
  success : Bool
  reason : Option String := none
  card : Option String := none
  awaiting_defense : Bool := false
  target_player : Option String := none
  target_organ : Option String := none
  effects : List EffectResult := []
  blocked_attack : Option String := none
  message : Option String := none
deriving DecidableEq, Repr

/-- engine.py GameEngine.can_play_card.  Lines 134-135 return the
not-in-hand rejection.  Every call that passes that check reaches line
138, whose operand `GameState.DEFEND` is not a member of models.py's
enum, so the function raises `AttributeError` there; the phase check,
`validate_card_play` call and target checks of lines 139-161 are dead
code in the shipped program. -/
def Engine.can_play_card (e : Engine) (pIdx : Nat) (card : Card)
    (_tp : Option Nat) (_torg : Option String) :
    Except PyError (Bool × String) :=
  if card ∉ (e.players.getD pIdx defaultPlayer).hand then
    Except.ok (false, "Card not in hand")
  else
    Except.error (PyError.attributeError "DEFEND")

/-- The unconditional mutations play_card performs once validation
passed (engine.py:178-179): `player.remove_card_from_hand(card)`
(`list.remove`, erase the first occurrence) and
`player.cards_played_this_turn += 1`.  Unreachable in the shipped
program — `can_play_card` raises first for any in-hand card. -/
def Engine.after_play_removal (e : Engine) (pIdx : Nat) (card : Card) : Engine :=
  { e with players := updateAt e.players pIdx (fun p =>
      { p with hand := p.hand.erase card
               cards_played_this_turn := p.cards_played_this_turn + 1 }) }

/-- engine.py GameEngine._resolve_attack.  The effect processing, the
discard of the attack card and the clearing of the pending context all
happen and persist on the object; then line 315 evaluates
`GameState.DISCARD`, absent from models.py's enum, and raises — the
result dict of lines 317-323 is never built. -/
def Engine.resolve_attack (e : Engine) : Engine × Except PyError PlayResult :=
  match e.current_attack with
  | none =>
      (e, Except.ok { success := false, reason := some "No attack to resolve" })
  | some atk =>
      let pr := e.process_card_effects atk.card atk.attacker
        (some atk.target_player) (some atk.target_organ)
      ({ pr.1 with discard_pile := pr.1.discard_pile ++ [atk.card]
                   current_attack := none
                   pending_defense := false },
       Except.error (PyError.attributeError "DISCARD"))

/-- engine.py GameEngine._handle_attack_card.  Missing targets are
rejected with a result dict; otherwise the pending-attack context is
stored and, when the target holds a Defense-kind card, `pending_defense`
is set (line 229) before line 230 evaluates `GameState.DEFEND` and
raises; the no-defense branch falls through to `_resolve_attack`.
Unreachable from play_card in the shipped program. -/
def Engine.handle_attack_card (e : Engine) (card : Card) (attacker : Nat)
    (tp : Option Nat) (torg : Option String) :
    Engine × Except PyError PlayResult :=
  if !(tp.isSome && strTruthy torg) then
    (e, Except.ok { success := false
                    reason := some "Attack cards require target player and organ"
                    card := some card.name })
  else
    let tIdx := tp.getD 0
    let organ := torg.getD ""
    let atk : AttackContext :=
      { card := card, attacker := attacker
        target_player := tIdx, target_organ := organ }
    let e1 := { e with current_attack := some atk }
    let defense_cards := (e1.players.getD tIdx defaultPlayer).get_cards_by_type
      CardType.DEFENSE
    if !defense_cards.isEmpty then
      ({ e1 with pending_defense := true },
       Except.error (PyError.attributeError "DEFEND"))
    else
      e1.resolve_attack

/-- engine.py GameEngine._handle_defense_card.  Rejects with a result
dict when no attack is pending; otherwise it discards the defense card,
clears `pending_defense`, discards the blocked attack card and clears
`current_attack`, and then line 266 evaluates `GameState.DISCARD` and
raises.  Unreachable from play_card in the shipped program. -/
def Engine.handle_defense_card (e : Engine) (card : Card) (_defender : Nat) :
    Engine × Except PyError PlayResult :=
  if e.current_attack.isNone || !e.pending_defense then
    (e, Except.ok { success := false
                    reason := some "No attack to defend against"
                    card := some card.name })
  else
    match e.current_attack with
    | none =>
        (e, Except.ok { success := false
                        reason := some "No attack to defend against"
                        card := some card.name })
    | some atk =>
        let e1 := { e with discard_pile := e.discard_pile ++ [card]
                           pending_defense := false }
        let e2 := { e1 with discard_pile := e1.discard_pile ++ [atk.card]
                            current_attack := none }
        (e2, Except.error (PyError.attributeError "DISCARD"))

/-- engine.py GameEngine._handle_action_card (wildcards are routed here
too): processes the effects and discards the card.  It touches no
`GameState` member, so it returns normally — but it is unreachable from
play_card in the shipped program. -/
def Engine.handle_action_card (e : Engine) (card : Card) (pIdx : Nat)
    (tp : Option Nat) (torg : Option String) :
    Engine × Except PyError PlayResult :=
  let pr := e.process_card_effects card pIdx tp torg
  ({ pr.1 with discard_pile := pr.1.discard_pile ++ [card] },
   Except.ok { success := true, card := some card.name, effects := pr.2 })

/-- engine.py GameEngine.play_card.  In the shipped program the only
result it can return is the not-in-hand rejection (state untouched):
for any in-hand card `can_play_card` raises at engine.py:138 before the
mutations of lines 178-179, and the exception propagates.  The dispatch
on the card kind below is the translation of the dead lines 177-206. -/
def Engine.play_card (e : Engine) (pIdx : Nat) (card : Card)
    (tp : Option Nat) (torg : Option String) :
    Engine × Except PyError PlayResult :=
  match e.can_play_card pIdx card tp torg with
  | Except.error pe => (e, Except.error pe)
  | Except.ok (can_play, reason) =>
      if can_play then
        let e1 := e.after_play_removal pIdx card
        if card.type.value = "Attack" then
          e1.handle_attack_card card pIdx tp torg
        else if card.type.value = "Defense" then
          e1.handle_defense_card card pIdx
        else if card.type.value = "Action" then
          e1.handle_action_card card pIdx tp torg
        else if card.type.value = "Wildcard" then
          e1.handle_action_card card pIdx tp torg
        else
          let pr := e1.process_card_effects card pIdx tp torg
          ({ pr.1 with discard_pile := pr.1.discard_pile ++ [card] },
           Except.ok { success := true, card := some card.name, effects := pr.2 })
      else
        (e, Except.ok { success := false
                        reason := some reason
                        card := some card.name })

/-- engine.py GameEngine.skip_defense: a result dict when nothing is
pending, otherwise `_resolve_attack`.  `pending_defense` is initialised
False (engine.py:46) and the only assignment making it True
(engine.py:229) is unreachable, so the shipped program always takes the
first branch. -/
def Engine.skip_defense (e : Engine) : Engine × Except PyError PlayResult :=
  if !e.pending_defense then
    (e, Except.ok { success := false, reason := some "No defense to skip" })
  else
    e.resolve_attack

/-- engine.py GameEngine.advance_turn.  Line 334 reads the current
player without mutating anything, and line 336 then evaluates
`GameState.DRAW`, absent from models.py's enum, and raises; none of the
phase handling of lines 336-363 can run. -/
def Engine.advance_turn (e : Engine) : Engine × Except PyError Unit :=
  (e, Except.error (PyError.attributeError "DRAW"))

/-- One iteration of engine.py GameEngine.force_discard: if the card is
present in the player's hand, remove it (`list.remove`, first
occurrence) and append it to the discard pile.  force_discard touches no
`GameState` member, so it runs to completion. -/
def Engine.force_discard_step (pIdx : Nat) (acc : Engine) (card : Card) : Engine :=
  if card ∈ (acc.players.getD pIdx defaultPlayer).hand then
    { acc with
        players := updateAt acc.players pIdx
                     (fun p => { p with hand := p.hand.erase card })
        discard_pile := acc.discard_pile ++ [card] }
  else acc

/-- The fold of `force_discard_step` over the requested cards, plus the
returned `not player.needs_to_discard()`. -/
def Engine.force_discard (e : Engine) (pIdx : Nat)
    (cards_to_discard : List Card) : Engine × Bool :=
  let e1 := cards_to_discard.foldl (Engine.force_discard_step pIdx) e
  (e1, !(e1.players.getD pIdx defaultPlayer).needs_to_discard)

/-- engine.py GameEngine.__init__.  Lines 22-23 raise `ValueError` for a
name count outside 2-4.  Otherwise lines 25-26 build the player list and
index, and line 27 then evaluates `GameState.SETUP`, which models.py's
enum does not declare: the constructor raises `AttributeError` and the
half-built object is discarded — construction never succeeds, and the
deck building and dealing of `_initialize_game` (lines 53-88) are dead
code. -/
def GameEngine.init (player_names : List String) : Except PyError Engine :=
  if player_names.length < 2 ∨ player_names.length > 4 then
    Except.error (PyError.valueError "Game requires 2-4 players")
  else
    Except.error (PyError.attributeError "SETUP")

/-- The combined multiset of cards in the deck, the discard pile and all
players' hands — the conserved quantity of spec section 8. -/
def Engine.all_cards (e : Engine) : Multiset Card :=
  (e.deck : Multiset Card) + (e.discard_pile : Multiset Card)
    + (e.players.map (fun p => (p.hand : Multiset Card))).sum

/-! ## Concrete instances used by counterexamples and witnesses -/

def playerC1 : Player := Player.init "Ada" [OrganType.HEART]

def chosenC10 : List OrganType :=
  [OrganType.HEART, OrganType.EYES, OrganType.BRAIN, OrganType.BLADDER,
   OrganType.LIVER, OrganType.TONGUE]

def organHeartProtected : OrganCard :=
  { mkOrganCard OrganType.HEART with
      is_protected := true, protection_source := some "Protected by Cleo" }

def playerC5 : Player :=
  { name := "Dan"
    organs := [("Heart", organHeartProtected)] }

def engineC5 : Engine :=
  { players := [{ name := "Cleo" }, playerC5], game_state := GameState.PLAY }

def cardC6a : Card :=
  { id := "action_001", name := "Adrenaline", type := CardType.ACTION
    description := "Draw two cards."
    effects := [{ action := "draw_cards", value := some 2 }] }

def cardC6b : Card :=
  { id := "attack_001", name := "Heart Attack", type := CardType.ATTACK
    description := "Attack the heart organ."
    effects := [{ action := "remove_organ", target_organ := some "Heart" }] }

def engineC6 : Engine :=
  { players := [], deck := [cardC6a, cardC6b], discard_pile := [] }

def engineC7 : Engine :=
  { players := [{ name := "Eli" }], deck := [], discard_pile := []
    game_state := GameState.PLAY }

def effC7 : CardEffect := { action := "draw_cards", value := some 2 }

def engineC7w : Engine :=
  { players := [{ name := "Eli" }], deck := [cardC6b], discard_pile := []
    game_state := GameState.PLAY }

def defenseCardC4 : Card :=
  { id := "defense_001", name := "Medical Kit", type := CardType.DEFENSE
    description := "Block any attack."
    effects := [{ action := "block_attack" }] }

def engineC4 : Engine :=
  { players := [{ name := "Fay", hand := [defenseCardC4] }, { name := "Gus" }]
    game_state := GameState.PLAY }

def heartAttackC2 : Card :=
  { id := "attack_001", name := "Heart Attack", type := CardType.ATTACK
    description := "Attack the heart organ."
    target := some { organ_type := some "Heart" }
    effects := [{ action := "remove_organ", target_organ := some "Heart" }] }

def engineC2 : Engine :=
  { players :=
      [{ name := "Jin"
         organs := [("Brain", mkOrganCard OrganType.BRAIN)]
         hand := [heartAttackC2] },
       { name := "Kai"
         organs := [("Heart", mkOrganCard OrganType.HEART)]
         hand := [] }]
    game_state := GameState.PLAY
    deck := []
    discard_pile := [] }

/-! ## Supporting lemmas -/

theorem Player.has_organ_spec (p : Player) (t : String)
    (h : p.has_organ t = true) :
    ∃ kv ∈ p.organs, kv.1 = t ∧ kv.2.is_removed = false := by
  unfold Player.has_organ at h
  cases hl : p.lookupOrgan t with
  | none => rw [hl] at h; cases h
  | some o =>
      rw [hl] at h
      unfold Player.lookupOrgan at hl
      cases hf : p.organs.find? (fun kv => kv.1 = t) with
      | none => rw [hf] at hl; cases hl
      | some kv =>
          rw [hf] at hl
          simp only [Option.map_some'] at hl
          refine ⟨kv, List.mem_of_find?_eq_some hf, ?_, ?_⟩
          · have h2 := List.find?_some hf
            simpa using h2
          · injection hl with hl2
            rw [hl2]
            simpa using h

theorem Player.has_organ_organs_remaining_ne_zero (p : Player) (t : String)
    (h : p.has_organ t = true) : p.organs_remaining ≠ 0 := by
  obtain ⟨kv, hmem, _, hrem⟩ := Player.has_organ_spec p t h
  have hkv : kv ∈ p.organs.filter (fun kv => !kv.2.is_removed) :=
    List.mem_filter.mpr ⟨hmem, by simp [hrem]⟩
  unfold Player.organs_remaining Player.get_available_organs
  simp only [List.length_map]
  intro hlen
  rw [List.length_eq_zero] at hlen
  rw [hlen] at hkv
  exact absurd hkv (List.not_mem_nil kv)

/-! ## C1 -/

/-- C1: after every call to `Player.remove_organ`, the player's count of
non-removed organs is zero if and only if the player's status is
`ELIMINATED`; the elimination check runs synchronously inside
`remove_organ` itself (the returned player already reflects it), so the
equivalence is preserved from any state in which it held before the
call. -/
theorem remove_organ_elimination_invariant (p : Player) (t : String)
    (h : p.organs_remaining = 0 ↔ p.status = PlayerStatus.ELIMINATED) :
    ((p.remove_organ t).1.organs_remaining = 0 ↔
      (p.remove_organ t).1.status = PlayerStatus.ELIMINATED) := by
  unfold Player.remove_organ
  by_cases hh : p.has_organ t = true
  · simp only [hh, if_true]
    unfold Player.check_elimination
    cases hgl : (p.setOrganRemoved t).get_available_organs with
    | nil =>
        simp only [hgl, List.isEmpty_nil, if_true]
        have hz : ({ p.setOrganRemoved t with
            status := PlayerStatus.ELIMINATED } : Player).organs_remaining = 0 := by
          unfold Player.organs_remaining
          have : ({ p.setOrganRemoved t with
              status := PlayerStatus.ELIMINATED } : Player).get_available_organs
              = (p.setOrganRemoved t).get_available_organs := rfl
          rw [this, hgl]
          rfl
        simp [hz]
    | cons a l =>
        simp only [hgl, List.isEmpty_cons, Bool.false_eq_true, if_false]
        have h1 : (p.setOrganRemoved t).organs_remaining ≠ 0 := by
          unfold Player.organs_remaining
          rw [hgl]
          simp
        have h2 : (p.setOrganRemoved t).status = p.status := rfl
        have h3 : p.status ≠ PlayerStatus.ELIMINATED := by
          intro hc
          exact Player.has_organ_organs_remaining_ne_zero p t hh (h.mpr hc)
        constructor
        · intro hc; exact absurd hc h1
        · intro hc; rw [h2] at hc; exact absurd hc h3
  · simp only [Bool.not_eq_true] at hh
    simp only [hh, Bool.false_eq_true, if_false]
    exact h

/-- Witness for C1 at a concrete one-organ player satisfying the
invariant: removing the last organ flips the status to `ELIMINATED`. -/
theorem remove_organ_elimination_invariant_witness :
    (playerC1.organs_remaining = 0 ↔ playerC1.status = PlayerStatus.ELIMINATED) ∧
    ((playerC1.remove_organ "Heart").1.organs_remaining = 0 ↔
      (playerC1.remove_organ "Heart").1.status = PlayerStatus.ELIMINATED) :=
  ⟨by decide, remove_organ_elimination_invariant playerC1 "Heart" (by decide)⟩

/-! ## C10 -/

/-- C10: a newly constructed player with an empty organ mapping gets
exactly 6 organ cards (the `random.sample` of 6 distinct organ types),
each not removed, not protected and with no protection source; an
organ's vitality flag is true exactly when its organ type is one of
Heart, Brain, Liver, Kidneys, Lungs, Stomach; and the status starts
`ACTIVE`. -/
theorem player_init_organ_setup (name : String) (chosen : List OrganType)
    (hlen : chosen.length = 6) (_hnd : chosen.Nodup) :
    (Player.init name chosen).organs.length = 6 ∧
    (Player.init name chosen).status = PlayerStatus.ACTIVE ∧
    ∀ kv ∈ (Player.init name chosen).organs,
      kv.2.is_removed = false ∧ kv.2.is_protected = false ∧
      kv.2.protection_source = none ∧
      (kv.2.is_vital = true ↔
        kv.2.organ_type ∈
          (["Heart", "Brain", "Liver", "Kidneys", "Lungs", "Stomach"] :
            List String)) := by
  refine ⟨?_, rfl, ?_⟩
  · simp [Player.init, hlen]
  · intro kv hkv
    simp only [Player.init, List.mem_map] at hkv
    obtain ⟨t, _ht, rfl⟩ := hkv
    refine ⟨rfl, rfl, rfl, ?_⟩
    cases t <;> decide

/-- Witness for C10 at a concrete sample of six organ types. -/
theorem player_init_organ_setup_witness :
    (Player.init "Bea" chosenC10).organs.length = 6 ∧
    (Player.init "Bea" chosenC10).status = PlayerStatus.ACTIVE ∧
    ∀ kv ∈ (Player.init "Bea" chosenC10).organs,
      kv.2.is_removed = false ∧ kv.2.is_protected = false ∧
      kv.2.protection_source = none ∧
      (kv.2.is_vital = true ↔
        kv.2.organ_type ∈
          (["Heart", "Brain", "Liver", "Kidneys", "Lungs", "Stomach"] :
            List String)) :=
  player_init_organ_setup "Bea" chosenC10 (by decide) (by decide)

theorem Player.has_organ_lookup (p : Player) (t : String)
    (h : p.has_organ t = true) :
    ∃ o, p.lookupOrgan t = some o ∧ o.is_removed = false := by
  unfold Player.has_organ at h
  cases hl : p.lookupOrgan t with
  | none => rw [hl] at h; cases h
  | some o =>
      rw [hl] at h
      exact ⟨o, rfl, by simpa using h⟩

theorem Player.is_organ_protected_has_organ (p : Player) (t : String)
    (h : p.is_organ_protected t = true) : p.has_organ t = true := by
  unfold Player.is_organ_protected at h
  by_cases hh : p.has_organ t = true
  · exact hh
  · simp only [Bool.not_eq_true] at hh
    rw [hh] at h
    simp at h

/-! ## C5 -/

/-- C5: the remove-organ resolver returns `success := false` with a
missing-target error when the target player or target organ is absent
(Python-falsy); and when the target organ is protected it returns
`success := false, blocked := true` without mutating any player or organ
state, the organ's removed flag being false before (hence after) the
call. -/
theorem remove_organ_effect_protected_or_missing (e : Engine) (eff : CardEffect)
    (pIdx : Nat) (tp : Option Nat) (torg : Option String) :
    ((tp.isSome && strTruthy torg) = false →
      e.remove_organ_effect eff pIdx tp torg =
        (e, { success := false
              error := some "Missing target for organ removal" })) ∧
    (∀ tIdx organ, tp = some tIdx → torg = some organ →
      strTruthy (some organ) = true →
      (e.players.getD tIdx defaultPlayer).is_organ_protected organ = true →
      (e.remove_organ_effect eff pIdx tp torg).1 = e ∧
      (e.remove_organ_effect eff pIdx tp torg).2 =
        { success := false, blocked := true
          reason := some "Organ is protected" } ∧
      ((e.players.getD tIdx defaultPlayer).lookupOrgan organ).map
          (fun o => o.is_removed) = some false) := by
  constructor
  · intro h
    unfold Engine.remove_organ_effect
    rw [h]
    rfl
  · intro tIdx organ htp hto htr hprot
    subst htp
    subst hto
    have hred : (e.remove_organ_effect eff pIdx (some tIdx) (some organ)) =
        (e, { success := false, blocked := true
              reason := some "Organ is protected" }) := by
      unfold Engine.remove_organ_effect
      simp only [Option.isSome_some, Bool.true_and, htr, Bool.not_true,
        Bool.false_eq_true, if_false, Option.getD_some, hprot, if_true]
    refine ⟨by rw [hred], by rw [hred], ?_⟩
    obtain ⟨o, hl, hr⟩ := Player.has_organ_lookup _ organ
      (Player.is_organ_protected_has_organ _ organ hprot)
    rw [hl]
    simp [hr]

/-- Witness for C5: a remove-organ effect against a concrete protected
heart is blocked without mutating the engine. -/
theorem remove_organ_effect_protected_or_missing_witness :
    (engineC5.remove_organ_effect { action := "remove_organ" } 0
        (some 1) (some "Heart")).1 = engineC5 ∧
    (engineC5.remove_organ_effect { action := "remove_organ" } 0
        (some 1) (some "Heart")).2 =
      { success := false, blocked := true
        reason := some "Organ is protected" } ∧
    ((engineC5.players.getD 1 defaultPlayer).lookupOrgan "Heart").map
        (fun o => o.is_removed) = some false :=
  (remove_organ_effect_protected_or_missing engineC5 { action := "remove_organ" }
    0 (some 1) (some "Heart")).2 1 "Heart" rfl rfl (by decide) (by decide)

/-! ## C6 -/

/-- C6: `_draw_card` pops and returns the last element of a non-empty
deck; when the deck is empty and the discard pile is not, the discard
pile is first reshuffled into the deck (discard emptied, new deck a
permutation — hence of equal size — of the prior discard) and the draw
then succeeds; and the draw returns no card exactly when deck and
discard pile are both empty. -/
theorem draw_card_deck_discard_spec (e : Engine)
    (hsh : ∀ l, (e.shuffle l).Perm l) :
    (e.deck ≠ [] →
      e.draw_card = ({ e with deck := e.deck.dropLast }, e.deck.getLast?)) ∧
    (e.deck = [] → e.discard_pile ≠ [] →
      e.reshuffle_deck.discard_pile = [] ∧
      e.reshuffle_deck.deck.Perm e.discard_pile ∧
      e.reshuffle_deck.deck.length = e.discard_pile.length ∧
      e.draw_card.2 = (e.shuffle e.discard_pile).getLast? ∧
      e.draw_card.2.isSome = true ∧
      e.draw_card.1.discard_pile = []) ∧
    (e.draw_card.2 = none ↔ e.deck = [] ∧ e.discard_pile = []) := by
  have hie : ∀ l : List Card, l ≠ [] → l.isEmpty = false := by
    intro l hl
    cases l with
    | nil => exact absurd rfl hl
    | cons a as => rfl
  have hshne : ∀ l : List Card, l ≠ [] → e.shuffle l ≠ [] := by
    intro l hl hc
    have hp := hsh l
    rw [hc] at hp
    exact hl hp.symm.eq_nil
  refine ⟨?_, ?_, ?_⟩
  · intro hd
    simp [Engine.draw_card, hie e.deck hd]
  · intro hd hdc
    have hres : e.reshuffle_deck =
        { e with deck := e.shuffle e.discard_pile, discard_pile := [] } := by
      unfold Engine.reshuffle_deck
      rw [hie e.discard_pile hdc]
      rfl
    have hdrw : e.draw_card =
        ({ e with deck := (e.shuffle e.discard_pile).dropLast, discard_pile := [] },
          (e.shuffle e.discard_pile).getLast?) := by
      unfold Engine.draw_card
      rw [hd]
      simp only [List.isEmpty_nil, if_true, hres, hie _ (hshne _ hdc),
        Bool.false_eq_true, if_false]
    refine ⟨by rw [hres], by rw [hres]; exact hsh _,
      by rw [hres]; exact (hsh _).length_eq, by rw [hdrw], ?_, by rw [hdrw]⟩
    rw [hdrw]
    simp only [List.getLast?_isSome]
    exact hshne _ hdc
  · constructor
    · intro hn
      by_cases hd : e.deck = []
      · by_cases hdc : e.discard_pile = []
        · exact ⟨hd, hdc⟩
        · have hdrw : e.draw_card.2 = (e.shuffle e.discard_pile).getLast? := by
            unfold Engine.draw_card
            rw [hd]
            have hres : e.reshuffle_deck =
                { e with deck := e.shuffle e.discard_pile, discard_pile := [] } := by
              unfold Engine.reshuffle_deck
              rw [hie e.discard_pile hdc]
              rfl
            simp only [List.isEmpty_nil, if_true, hres, hie _ (hshne _ hdc),
              Bool.false_eq_true, if_false]
          rw [hdrw] at hn
          have := List.getLast?_isSome.mpr (hshne _ hdc)
          rw [hn] at this
          cases this
      · have : e.draw_card.2 = e.deck.getLast? := by
          simp [Engine.draw_card, hie e.deck hd]
        rw [this] at hn
        have := List.getLast?_isSome.mpr hd
        rw [hn] at this
        cases this
    · rintro ⟨hd, hdc⟩
      unfold Engine.draw_card
      rw [hd]
      simp [Engine.reshuffle_deck, hdc, hd]

/-- Witness for C6: drawing from a concrete two-card deck pops the last
card. -/
theorem draw_card_deck_discard_spec_witness :
    engineC6.deck ≠ [] ∧
    engineC6.draw_card =
      ({ engineC6 with deck := engineC6.deck.dropLast }, engineC6.deck.getLast?) :=
  ⟨by decide,
   (draw_card_deck_discard_spec engineC6 (fun l => List.Perm.refl l)).1 (by decide)⟩

theorem updateAt_length {α : Type} (l : List α) (i : Nat) (f : α → α) :
    (updateAt l i f).length = l.length := by
  induction l generalizing i with
  | nil => rfl
  | cons x xs ih =>
      cases i with
      | zero => rfl
      | succ n => simp [updateAt, ih]

theorem updateAt_getD_self {α : Type} (l : List α) (i : Nat) (f : α → α) (d : α)
    (h : i < l.length) : (updateAt l i f).getD i d = f (l.getD i d) := by
  induction l generalizing i with
  | nil => cases h
  | cons x xs ih =>
      cases i with
      | zero => rfl
      | succ n =>
          simp only [updateAt, List.getD_cons_succ]
          exact ih n (by simpa using h)

theorem Engine.reshuffle_players (e : Engine) :
    e.reshuffle_deck.players = e.players := by
  unfold Engine.reshuffle_deck
  split <;> rfl

theorem Engine.reshuffle_shuffle (e : Engine) :
    e.reshuffle_deck.shuffle = e.shuffle := by
  unfold Engine.reshuffle_deck
  split <;> rfl

theorem Engine.draw_card_players (e : Engine) :
    e.draw_card.1.players = e.players := by
  rw [Engine.draw_card]
  cases h : e.deck.isEmpty with
  | true =>
      simp only [h, if_true]
      cases h2 : e.reshuffle_deck.deck.isEmpty with
      | true =>
          simp only [h2, if_true]
          exact e.reshuffle_players
      | false =>
          simp only [h2, Bool.false_eq_true, if_false]
          exact e.reshuffle_players
  | false =>
      simp only [h, Bool.false_eq_true, if_false]

theorem Engine.draw_card_shuffle (e : Engine) :
    e.draw_card.1.shuffle = e.shuffle := by
  rw [Engine.draw_card]
  cases h : e.deck.isEmpty with
  | true =>
      simp only [h, if_true]
      cases h2 : e.reshuffle_deck.deck.isEmpty with
      | true =>
          simp only [h2, if_true]
          exact e.reshuffle_shuffle
      | false =>
          simp only [h2, Bool.false_eq_true, if_false]
          exact e.reshuffle_shuffle
  | false =>
      simp only [h, Bool.false_eq_true, if_false]

/-- One `_draw_card` call either yields nothing (both piles empty,
engine unchanged) or consumes exactly one card from deck-plus-discard. -/
theorem Engine.draw_card_counts (e : Engine)
    (hsh : ∀ l, (e.shuffle l).length = l.length) :
    (e.deck.length + e.discard_pile.length = 0 → e.draw_card = (e, none)) ∧
    (0 < e.deck.length + e.discard_pile.length →
      e.draw_card.2.isSome = true ∧
      e.draw_card.1.deck.length + e.draw_card.1.discard_pile.length + 1
        = e.deck.length + e.discard_pile.length) := by
  constructor
  · intro h0
    have hd : e.deck = [] := by
      cases hdk : e.deck with
      | nil => rfl
      | cons a l => rw [hdk] at h0; simp at h0
    have hdc : e.discard_pile = [] := by
      cases hdk : e.discard_pile with
      | nil => rfl
      | cons a l => rw [hdk] at h0; simp at h0
    rw [Engine.draw_card, hd]
    simp [Engine.reshuffle_deck, hdc, hd]
  · intro hpos
    cases hdk : e.deck with
    | cons a l =>
        have hie : e.deck.isEmpty = false := by rw [hdk]; rfl
        have hne : e.deck ≠ [] := by rw [hdk]; simp
        have hdrw : e.draw_card =
            ({ e with deck := e.deck.dropLast }, e.deck.getLast?) := by
          rw [Engine.draw_card]
          simp only [hie, Bool.false_eq_true, if_false]
        rw [hdrw]
        constructor
        · exact (List.getLast?_isSome).mpr hne
        · rw [hdk]
          simp only [List.length_dropLast, List.length_cons]
          omega
    | nil =>
        have hdc : e.discard_pile ≠ [] := by
          intro hc
          rw [hdk, hc] at hpos
          simp at hpos
        have hdcl : 0 < e.discard_pile.length := List.length_pos.mpr hdc
        have hie : e.discard_pile.isEmpty = false := by
          cases hx : e.discard_pile with
          | nil => exact absurd hx hdc
          | cons a l => rfl
        have hres : e.reshuffle_deck =
            { e with deck := e.shuffle e.discard_pile, discard_pile := [] } := by
          rw [Engine.reshuffle_deck, hie]
          rfl
        have hlen : (e.shuffle e.discard_pile).length = e.discard_pile.length := hsh _
        have hsnn : e.shuffle e.discard_pile ≠ [] := by
          intro hc
          rw [hc] at hlen
          rw [← hlen] at hdcl
          simp at hdcl
        have hsne : (e.shuffle e.discard_pile).isEmpty = false := by
          cases hx : e.shuffle e.discard_pile with
          | nil => exact absurd hx hsnn
          | cons a l => rfl
        have hdrw : e.draw_card =
            ({ e with deck := (e.shuffle e.discard_pile).dropLast
                      discard_pile := [] },
              (e.shuffle e.discard_pile).getLast?) := by
          rw [Engine.draw_card, hdk]
          simp only [List.isEmpty_nil, if_true, hres, hsne,
            Bool.false_eq_true, if_false]
        rw [hdrw]
        constructor
        · exact (List.getLast?_isSome).mpr hsnn
        · simp only [List.length_dropLast, List.length_nil, hlen]
          omega

/-- One `draw_card_for_player` call with cards available: the drawn card
lands in the player's hand and one card leaves deck-plus-discard. -/
theorem Engine.draw_card_for_player_step (e : Engine) (pIdx : Nat)
    (hp : pIdx < e.players.length)
    (hsh : ∀ l, (e.shuffle l).length = l.length) :
    (e.deck.length + e.discard_pile.length = 0 →
      e.draw_card_for_player pIdx = (e, none)) ∧
    (0 < e.deck.length + e.discard_pile.length →
      (e.draw_card_for_player pIdx).2.isSome = true ∧
      (e.draw_card_for_player pIdx).1.deck.length
          + (e.draw_card_for_player pIdx).1.discard_pile.length + 1
        = e.deck.length + e.discard_pile.length ∧
      ((e.draw_card_for_player pIdx).1.players.getD pIdx defaultPlayer).hand.length
        = (e.players.getD pIdx defaultPlayer).hand.length + 1 ∧
      (e.draw_card_for_player pIdx).1.players.length = e.players.length ∧
      (e.draw_card_for_player pIdx).1.shuffle = e.shuffle) := by
  constructor
  · intro h0
    have hdc := (e.draw_card_counts hsh).1 h0
    rw [Engine.draw_card_for_player, hdc]
  · intro hpos
    obtain ⟨hs, hcnt⟩ := (e.draw_card_counts hsh).2 hpos
    cases hr2 : e.draw_card.2 with
    | none => rw [hr2] at hs; cases hs
    | some c =>
        have hred : e.draw_card_for_player pIdx =
            ({ e.draw_card.1 with
                 players := updateAt e.draw_card.1.players pIdx
                              (fun p =>
                                { p.add_card_to_hand c with
                                    cards_drawn_this_turn :=
                                      p.cards_drawn_this_turn + 1 }) },
              some c) := by
          rw [Engine.draw_card_for_player, hr2]
        have hp1 : pIdx < e.draw_card.1.players.length := by
          rw [e.draw_card_players]
          exact hp
        rw [hred]
        refine ⟨rfl, hcnt, ?_, ?_, e.draw_card_shuffle⟩
        · show ((updateAt e.draw_card.1.players pIdx _).getD pIdx
            defaultPlayer).hand.length = _
          rw [updateAt_getD_self _ _ _ _ hp1, e.draw_card_players]
          simp [Player.add_card_to_hand]
        · show (updateAt e.draw_card.1.players pIdx _).length = _
          rw [updateAt_length, e.draw_card_players]

/-- The draw loop of `_draw_cards_effect` grows the acting player's hand
by exactly `min n (deck + discard)` cards. -/
theorem Engine.draw_loop_hand (pIdx : Nat) :
    ∀ (n : Nat) (e : Engine), pIdx < e.players.length →
    (∀ l, (e.shuffle l).length = l.length) →
    ((Engine.draw_loop pIdx n e).players.getD pIdx defaultPlayer).hand.length
      = (e.players.getD pIdx defaultPlayer).hand.length
        + min n (e.deck.length + e.discard_pile.length) := by
  intro n
  induction n with
  | zero =>
      intro e hp hsh
      simp [Engine.draw_loop]
  | succ n ih =>
      intro e hp hsh
      by_cases hz : e.deck.length + e.discard_pile.length = 0
      · have h0 := (e.draw_card_for_player_step pIdx hp hsh).1 hz
        simp only [Engine.draw_loop]
        rw [h0]
        simp [hz]
      · have hpos : 0 < e.deck.length + e.discard_pile.length :=
          Nat.pos_of_ne_zero hz
        obtain ⟨hs, hcnt, hhand, hplen, hshf⟩ :=
          (e.draw_card_for_player_step pIdx hp hsh).2 hpos
        cases hr2 : (e.draw_card_for_player pIdx).2 with
        | none => rw [hr2] at hs; cases hs
        | some c =>
            simp only [Engine.draw_loop]
            rw [hr2]
            have hp2 : pIdx < (e.draw_card_for_player pIdx).1.players.length := by
              rw [hplen]; exact hp
            have hsh2 : ∀ l,
                ((e.draw_card_for_player pIdx).1.shuffle l).length = l.length := by
              rw [hshf]; exact hsh
            rw [ih _ hp2 hsh2, hhand]
            omega

/-! ## C7 -/

/-- Counterexample to C7 as stated: with deck and discard both empty, a
draw-cards effect of value 2 draws nothing (the hand stays empty), yet
the returned result reports `count = 2`, not the number actually
drawn. -/
theorem draw_cards_effect_count_mismatch :
    (engineC7.draw_cards_effect effC7 0).2.success = true ∧
    (engineC7.draw_cards_effect effC7 0).2.count = some 2 ∧
    ((engineC7.draw_cards_effect effC7 0).1.players.getD 0 defaultPlayer).hand.length
      = 0 ∧
    (engineC7.players.getD 0 defaultPlayer).hand.length = 0 := by
  refine ⟨rfl, rfl, rfl, rfl⟩

/-- C7 amended: the resolver draws up to `n` cards (`effect.value or 1`),
stopping early when deck and discard are both exhausted, and always
returns a success result — but the reported `count` equals the requested
`n`, not the number actually drawn. -/
theorem draw_cards_effect_reports_requested (e : Engine) (eff : CardEffect)
    (pIdx : Nat) (hp : pIdx < e.players.length)
    (hsh : ∀ l, (e.shuffle l).length = l.length) :
    (e.draw_cards_effect eff pIdx).2.success = true ∧
    (e.draw_cards_effect eff pIdx).2.count =
      some (match eff.value with
            | none => (1 : Int)
            | some v => if v = 0 then 1 else v) ∧
    ((e.draw_cards_effect eff pIdx).1.players.getD pIdx defaultPlayer).hand.length
      = (e.players.getD pIdx defaultPlayer).hand.length
        + min (match eff.value with
               | none => (1 : Int)
               | some v => if v = 0 then 1 else v).toNat
            (e.deck.length + e.discard_pile.length) := by
  refine ⟨rfl, rfl, ?_⟩
  exact Engine.draw_loop_hand pIdx _ e hp hsh

/-- Witness for the amended C7: requesting 2 cards with only 1 available
draws 1 (hand grows by `min 2 1`) while the result still reports
`count = 2`. -/
theorem draw_cards_effect_reports_requested_witness :
    (engineC7w.draw_cards_effect effC7 0).2.success = true ∧
    (engineC7w.draw_cards_effect effC7 0).2.count = some 2 ∧
    ((engineC7w.draw_cards_effect effC7 0).1.players.getD 0 defaultPlayer).hand.length
      = (engineC7w.players.getD 0 defaultPlayer).hand.length + min 2 1 :=
  draw_cards_effect_reports_requested engineC7w effC7 0 (by decide) (fun l => rfl)

/-! ## The two behaviours of the shipped play_card -/

theorem Engine.play_card_cases (e : Engine) (pIdx : Nat) (card : Card)
    (tp : Option Nat) (torg : Option String) :
    (card ∈ (e.players.getD pIdx defaultPlayer).hand ∧
      e.play_card pIdx card tp torg =
        (e, Except.error (PyError.attributeError "DEFEND"))) ∨
    (card ∉ (e.players.getD pIdx defaultPlayer).hand ∧
      e.play_card pIdx card tp torg =
        (e, Except.ok { success := false
                        reason := some "Card not in hand"
                        card := some card.name })) := by
  by_cases hm : card ∈ (e.players.getD pIdx defaultPlayer).hand
  · left
    refine ⟨hm, ?_⟩
    unfold Engine.play_card Engine.can_play_card
    rw [if_neg (not_not_intro hm)]
  · right
    refine ⟨hm, ?_⟩
    unfold Engine.play_card Engine.can_play_card
    rw [if_pos hm]
    rfl

/-! ## C4 -/

/-- C4 evidence: on an in-hand Defense-kind card in the `PLAY` state
(with models.py's enum every state is a state other than Defend),
`can_play_card` does not reject the play — it raises `AttributeError`
at engine.py:138, because `GameState.DEFEND` is not a member of the
shipped enum. -/
theorem can_play_defense_raises_attribute_error :
    defenseCardC4.type = CardType.DEFENSE ∧
    engineC4.can_play_card 0 defenseCardC4 none none =
      Except.error (PyError.attributeError "DEFEND") :=
  ⟨rfl, rfl⟩

/-! ## C2 -/

/-- C2 evidence: a fully-targeted Attack-kind play against a
defenseless opponent never validates, stores no pending attack and
resolves nothing: `can_play_card` raises `AttributeError` at
engine.py:138 and `play_card` propagates it, leaving the engine
untouched. -/
theorem attack_play_raises_attribute_error :
    engineC2.play_card 0 heartAttackC2 (some 1) (some "Heart") =
      (engineC2, Except.error (PyError.attributeError "DEFEND")) := rfl

/-! ## C3 -/

/-- C3: every call to `play_card` that returns a result with success
false — in the shipped program the only results it can return at all —
carries a reason string (necessarily the not-in-hand rejection, the one
failure produced before engine.py:138 can raise) and leaves the entire
engine state unchanged. -/
theorem play_card_failure_reason_no_mutation (e : Engine) (pIdx : Nat)
    (card : Card) (tp : Option Nat) (torg : Option String)
    (e1 : Engine) (r : PlayResult)
    (h : e.play_card pIdx card tp torg = (e1, Except.ok r)) :
    r.success = false ∧ r.reason = some "Card not in hand" ∧ e1 = e := by
  rcases Engine.play_card_cases e pIdx card tp torg with ⟨_, hpc⟩ | ⟨_, hpc⟩
  · rw [hpc] at h
    injection h with h1 h2
    exact absurd h2 (by simp)
  · rw [hpc] at h
    injection h with h1 h2
    injection h2 with h3
    subst h3
    exact ⟨rfl, rfl, h1.symm⟩

/-- Witness for C3: playing a card that is not in the hand returns the
reasoned failure and leaves the engine untouched. -/
theorem play_card_failure_reason_no_mutation_witness :
    ({ success := false, reason := some "Card not in hand"
       card := some "Medical Kit" } : PlayResult).success = false ∧
    ({ success := false, reason := some "Card not in hand"
       card := some "Medical Kit" } : PlayResult).reason =
      some "Card not in hand" ∧
    engineC2 = engineC2 :=
  play_card_failure_reason_no_mutation engineC2 0 defenseCardC4 none none
    engineC2
    { success := false, reason := some "Card not in hand"
      card := some "Medical Kit" } rfl

/-! ## C9 -/

/-- C9 evidence: constructing the engine raises `ValueError` exactly
when the name count is outside 2-4 — but with 2 to 4 names it does not
succeed either: line 27 evaluates `GameState.SETUP`, absent from
models.py's enum, and the constructor raises `AttributeError`; no call
ever yields an engine. -/
theorem game_engine_init_never_succeeds (player_names : List String) :
    (player_names.length < 2 ∨ player_names.length > 4 →
      GameEngine.init player_names =
        Except.error (PyError.valueError "Game requires 2-4 players")) ∧
    (2 ≤ player_names.length → player_names.length ≤ 4 →
      GameEngine.init player_names =
        Except.error (PyError.attributeError "SETUP")) ∧
    ∀ e, GameEngine.init player_names ≠ Except.ok e := by
  refine ⟨?_, ?_, ?_⟩
  · intro h
    unfold GameEngine.init
    rw [if_pos h]
  · intro h2 h4
    unfold GameEngine.init
    rw [if_neg (by omega)]
  · intro e hc
    unfold GameEngine.init at hc
    by_cases h : player_names.length < 2 ∨ player_names.length > 4
    · rw [if_pos h] at hc
      exact Except.noConfusion hc
    · rw [if_neg h] at hc
      exact Except.noConfusion hc

/-- Witness for C9: one name raises the `ValueError`; two names reach
line 27 and raise the `AttributeError`. -/
theorem game_engine_init_never_succeeds_witness :
    GameEngine.init ["Solo"] =
      Except.error (PyError.valueError "Game requires 2-4 players") ∧
    GameEngine.init ["Ana", "Borys"] =
      Except.error (PyError.attributeError "SETUP") :=
  ⟨(game_engine_init_never_succeeds ["Solo"]).1 (by decide),
   (game_engine_init_never_succeeds ["Ana", "Borys"]).2.1
     (by decide) (by decide)⟩

/-! ## C8 -/

theorem updateAt_map_sum (l : List Player) (i : Nat) (f : Player → Player)
    (g : Player → Multiset Card) (h : i < l.length) :
    ((updateAt l i f).map g).sum + g (l.getD i defaultPlayer)
      = (l.map g).sum + g (f (l.getD i defaultPlayer)) := by
  induction l generalizing i with
  | nil => cases h
  | cons x xs ih =>
      cases i with
      | zero =>
          simp only [updateAt, List.map_cons, List.sum_cons, List.getD_cons_zero]
          abel
      | succ n =>
          simp only [updateAt, List.map_cons, List.sum_cons, List.getD_cons_succ]
          rw [add_assoc, add_assoc, ih n (by simpa using h)]

/-- One `_draw_card` call either yields nothing and leaves the engine
unchanged, or moves exactly one card out of deck-plus-discard,
preserving the combined multiset. -/
theorem Engine.draw_card_multiset (e : Engine)
    (hsh : ∀ l, (e.shuffle l).Perm l) :
    (e.draw_card.2 = none → e.draw_card.1 = e) ∧
    (∀ c, e.draw_card.2 = some c →
      (e.draw_card.1.deck : Multiset Card)
          + (e.draw_card.1.discard_pile : Multiset Card) + {c}
        = (e.deck : Multiset Card) + (e.discard_pile : Multiset Card)) := by
  by_cases hne : e.deck = []
  · by_cases hdc : e.discard_pile = []
    · have hdrw : e.draw_card = (e, none) := by
        rw [Engine.draw_card, hne]
        simp [Engine.reshuffle_deck, hdc, hne]
      constructor
      · intro _
        rw [hdrw]
      · intro c hc
        rw [hdrw] at hc
        exact Option.noConfusion hc
    · have hie : e.discard_pile.isEmpty = false := by
        cases hx : e.discard_pile with
        | nil => exact absurd hx hdc
        | cons y ys => rfl
      have hres : e.reshuffle_deck =
          { e with deck := e.shuffle e.discard_pile, discard_pile := [] } := by
        rw [Engine.reshuffle_deck, hie]
        rfl
      have hsnn : e.shuffle e.discard_pile ≠ [] := by
        intro hcn
        have hperm := hsh e.discard_pile
        rw [hcn] at hperm
        exact hdc hperm.symm.eq_nil
      have hsne : (e.shuffle e.discard_pile).isEmpty = false := by
        cases hx : e.shuffle e.discard_pile with
        | nil => exact absurd hx hsnn
        | cons y ys => rfl
      have hdrw : e.draw_card =
          ({ e with deck := (e.shuffle e.discard_pile).dropLast
                    discard_pile := [] },
            (e.shuffle e.discard_pile).getLast?) := by
        rw [Engine.draw_card, hne]
        simp only [List.isEmpty_nil, if_true, hres, hsne,
          Bool.false_eq_true, if_false]
      constructor
      · intro hn
        rw [hdrw] at hn
        have hns : (e.shuffle e.discard_pile).getLast?.isSome = true :=
          (List.getLast?_isSome).mpr hsnn
        have hn2 : (e.shuffle e.discard_pile).getLast? = none := hn
        rw [hn2] at hns
        cases hns
      · intro c hc
        rw [hdrw] at hc ⊢
        have hc2 : (e.shuffle e.discard_pile).getLast? = some c := hc
        have hlist : (e.shuffle e.discard_pile).dropLast ++ [c]
            = e.shuffle e.discard_pile :=
          List.dropLast_append_getLast? c (Option.mem_def.mpr hc2)
        have hm1 : ((e.shuffle e.discard_pile).dropLast : Multiset Card) + {c}
            = (e.discard_pile : Multiset Card) := by
          rw [← Multiset.coe_singleton, Multiset.coe_add, hlist]
          exact Multiset.coe_eq_coe.mpr (hsh _)
        show ((e.shuffle e.discard_pile).dropLast : Multiset Card)
            + (([] : List Card) : Multiset Card) + {c}
          = (e.deck : Multiset Card) + (e.discard_pile : Multiset Card)
        rw [hne]
        calc ((e.shuffle e.discard_pile).dropLast : Multiset Card)
              + (([] : List Card) : Multiset Card) + {c}
            = (((e.shuffle e.discard_pile).dropLast : Multiset Card) + {c})
              + (([] : List Card) : Multiset Card) := by abel
          _ = (e.discard_pile : Multiset Card)
              + (([] : List Card) : Multiset Card) := by rw [hm1]
          _ = (([] : List Card) : Multiset Card)
              + (e.discard_pile : Multiset Card) := by abel
  · have hie : e.deck.isEmpty = false := by
      cases hx : e.deck with
      | nil => exact absurd hx hne
      | cons y ys => rfl
    have hdrw : e.draw_card =
        ({ e with deck := e.deck.dropLast }, e.deck.getLast?) := by
      rw [Engine.draw_card]
      simp only [hie, Bool.false_eq_true, if_false]
    constructor
    · intro hn
      rw [hdrw] at hn
      have hns : e.deck.getLast?.isSome = true :=
        (List.getLast?_isSome).mpr hne
      have hn2 : e.deck.getLast? = none := hn
      rw [hn2] at hns
      cases hns
    · intro c hc
      rw [hdrw] at hc ⊢
      have hc2 : e.deck.getLast? = some c := hc
      have hlist : e.deck.dropLast ++ [c] = e.deck :=
        List.dropLast_append_getLast? c (Option.mem_def.mpr hc2)
      have hm1 : (e.deck.dropLast : Multiset Card) + {c}
          = (e.deck : Multiset Card) := by
        rw [← Multiset.coe_singleton, Multiset.coe_add, hlist]
      show (e.deck.dropLast : Multiset Card)
          + (e.discard_pile : Multiset Card) + {c}
        = (e.deck : Multiset Card) + (e.discard_pile : Multiset Card)
      calc (e.deck.dropLast : Multiset Card)
            + (e.discard_pile : Multiset Card) + {c}
          = ((e.deck.dropLast : Multiset Card) + {c})
            + (e.discard_pile : Multiset Card) := by abel
        _ = (e.deck : Multiset Card) + (e.discard_pile : Multiset Card) := by
            rw [hm1]

/-- Drawing a card for a player preserves the combined multiset of
cards in deck, discard pile and hands. -/
theorem Engine.draw_card_for_player_all_cards (e : Engine) (pIdx : Nat)
    (hp : pIdx < e.players.length) (hsh : ∀ l, (e.shuffle l).Perm l) :
    (e.draw_card_for_player pIdx).1.all_cards = e.all_cards := by
  cases hr2 : e.draw_card.2 with
  | none =>
      have h1 : e.draw_card.1 = e := (e.draw_card_multiset hsh).1 hr2
      rw [Engine.draw_card_for_player, hr2, h1]
  | some c =>
      have h2 := (e.draw_card_multiset hsh).2 c hr2
      have hdp : e.draw_card.1.players = e.players := e.draw_card_players
      have hp1 : pIdx < e.draw_card.1.players.length := by
        rw [hdp]
        exact hp
      rw [Engine.draw_card_for_player, hr2]
      show (e.draw_card.1.deck : Multiset Card)
          + (e.draw_card.1.discard_pile : Multiset Card)
          + ((updateAt e.draw_card.1.players pIdx
              (fun p => { p.add_card_to_hand c with
                  cards_drawn_this_turn := p.cards_drawn_this_turn + 1 })).map
              (fun p => (p.hand : Multiset Card))).sum
        = (e.deck : Multiset Card) + (e.discard_pile : Multiset Card)
          + (e.players.map (fun p => (p.hand : Multiset Card))).sum
      have hsum := updateAt_map_sum e.draw_card.1.players pIdx
        (fun p => { p.add_card_to_hand c with
            cards_drawn_this_turn := p.cards_drawn_this_turn + 1 })
        (fun p => (p.hand : Multiset Card)) hp1
      have hgf : ((e.draw_card.1.players.getD pIdx defaultPlayer).hand ++ [c] :
            Multiset Card)
          = ((e.draw_card.1.players.getD pIdx defaultPlayer).hand :
              Multiset Card) + {c} := by
        rw [← Multiset.coe_singleton, Multiset.coe_add]
      have hsum2 : ((updateAt e.draw_card.1.players pIdx
            (fun p => { p.add_card_to_hand c with
                cards_drawn_this_turn := p.cards_drawn_this_turn + 1 })).map
            (fun p => (p.hand : Multiset Card))).sum
            + ((e.draw_card.1.players.getD pIdx defaultPlayer).hand :
                Multiset Card)
          = (e.draw_card.1.players.map
              (fun p => (p.hand : Multiset Card))).sum
            + (((e.draw_card.1.players.getD pIdx defaultPlayer).hand :
                Multiset Card) + {c}) := by
        rw [← hgf]
        exact hsum
      have hcancel : ((updateAt e.draw_card.1.players pIdx
            (fun p => { p.add_card_to_hand c with
                cards_drawn_this_turn := p.cards_drawn_this_turn + 1 })).map
            (fun p => (p.hand : Multiset Card))).sum
          = (e.draw_card.1.players.map
              (fun p => (p.hand : Multiset Card))).sum + {c} := by
        have h' : ((updateAt e.draw_card.1.players pIdx
              (fun p => { p.add_card_to_hand c with
                  cards_drawn_this_turn := p.cards_drawn_this_turn + 1 })).map
              (fun p => (p.hand : Multiset Card))).sum
              + ((e.draw_card.1.players.getD pIdx defaultPlayer).hand :
                  Multiset Card)
            = ((e.draw_card.1.players.map
                (fun p => (p.hand : Multiset Card))).sum + {c})
              + ((e.draw_card.1.players.getD pIdx defaultPlayer).hand :
                  Multiset Card) := by
          rw [hsum2]
          abel
        exact add_right_cancel h'
      rw [hcancel, hdp]
      calc (e.draw_card.1.deck : Multiset Card)
            + (e.draw_card.1.discard_pile : Multiset Card)
            + ((e.players.map (fun p => (p.hand : Multiset Card))).sum + {c})
          = ((e.draw_card.1.deck : Multiset Card)
              + (e.draw_card.1.discard_pile : Multiset Card) + {c})
            + (e.players.map (fun p => (p.hand : Multiset Card))).sum := by
            abel
        _ = ((e.deck : Multiset Card) + (e.discard_pile : Multiset Card))
            + (e.players.map (fun p => (p.hand : Multiset Card))).sum := by
            rw [h2]
        _ = (e.deck : Multiset Card) + (e.discard_pile : Multiset Card)
            + (e.players.map (fun p => (p.hand : Multiset Card))).sum := by
            abel

/-- Erasing a present card from the hand of player `i` removes exactly
one copy of it from the summed hand multisets. -/
theorem sum_map_updateAt_erase (l : List Player) (i : Nat) (c : Card)
    (h : i < l.length) (hm : c ∈ (l.getD i defaultPlayer).hand) :
    ((updateAt l i (fun p => { p with hand := p.hand.erase c })).map
        (fun p => (p.hand : Multiset Card))).sum + {c}
      = (l.map (fun p => (p.hand : Multiset Card))).sum := by
  have hsum2 : ((updateAt l i (fun p => { p with hand := p.hand.erase c })).map
        (fun p => (p.hand : Multiset Card))).sum
        + ((l.getD i defaultPlayer).hand : Multiset Card)
      = (l.map (fun p => (p.hand : Multiset Card))).sum
        + ((l.getD i defaultPlayer).hand.erase c : Multiset Card) :=
    updateAt_map_sum l i (fun p => { p with hand := p.hand.erase c })
      (fun p => (p.hand : Multiset Card)) h
  have hh : ((l.getD i defaultPlayer).hand : Multiset Card)
      = {c} + ((l.getD i defaultPlayer).hand.erase c : Multiset Card) := by
    have hco := Multiset.coe_eq_coe.mpr (List.perm_cons_erase hm)
    rw [hco, ← Multiset.cons_coe, Multiset.singleton_add]
  rw [hh] at hsum2
  have h2 : (((updateAt l i (fun p => { p with hand := p.hand.erase c })).map
        (fun p => (p.hand : Multiset Card))).sum + {c})
        + ((l.getD i defaultPlayer).hand.erase c : Multiset Card)
      = (l.map (fun p => (p.hand : Multiset Card))).sum
        + ((l.getD i defaultPlayer).hand.erase c : Multiset Card) := by
    rw [add_assoc]
    exact hsum2
  exact add_right_cancel h2

/-- One force-discard iteration preserves the combined multiset (a card
moves from the hand to the discard pile, or nothing happens) and the
player count. -/
theorem Engine.force_discard_step_all_cards (pIdx : Nat) (acc : Engine)
    (card : Card) (hp : pIdx < acc.players.length) :
    (Engine.force_discard_step pIdx acc card).all_cards = acc.all_cards ∧
    (Engine.force_discard_step pIdx acc card).players.length
      = acc.players.length := by
  unfold Engine.force_discard_step
  by_cases hm : card ∈ (acc.players.getD pIdx defaultPlayer).hand
  · rw [if_pos hm]
    constructor
    · show (acc.deck : Multiset Card)
          + ((acc.discard_pile ++ [card] : List Card) : Multiset Card)
          + ((updateAt acc.players pIdx
              (fun p => { p with hand := p.hand.erase card })).map
              (fun p => (p.hand : Multiset Card))).sum
        = acc.all_cards
      have hS := sum_map_updateAt_erase acc.players pIdx card hp hm
      have hdp2 : ((acc.discard_pile ++ [card] : List Card) : Multiset Card)
          = (acc.discard_pile : Multiset Card) + {card} := by
        rw [← Multiset.coe_singleton, Multiset.coe_add]
      rw [hdp2]
      calc (acc.deck : Multiset Card)
            + ((acc.discard_pile : Multiset Card) + {card})
            + ((updateAt acc.players pIdx
                (fun p => { p with hand := p.hand.erase card })).map
                (fun p => (p.hand : Multiset Card))).sum
          = (acc.deck : Multiset Card) + (acc.discard_pile : Multiset Card)
            + (((updateAt acc.players pIdx
                (fun p => { p with hand := p.hand.erase card })).map
                (fun p => (p.hand : Multiset Card))).sum + {card}) := by abel
        _ = (acc.deck : Multiset Card) + (acc.discard_pile : Multiset Card)
            + (acc.players.map (fun p => (p.hand : Multiset Card))).sum := by
            rw [hS]
        _ = acc.all_cards := rfl
    · show (updateAt acc.players pIdx
          (fun p => { p with hand := p.hand.erase card })).length
        = acc.players.length
      rw [updateAt_length]
  · rw [if_neg hm]
    exact ⟨rfl, rfl⟩

/-- Forced discards preserve the combined multiset of cards. -/
theorem Engine.force_discard_all_cards (pIdx : Nat) :
    ∀ (cards : List Card) (e : Engine), pIdx < e.players.length →
    (e.force_discard pIdx cards).1.all_cards = e.all_cards := by
  have key : ∀ (cards : List Card) (e : Engine), pIdx < e.players.length →
      (cards.foldl (Engine.force_discard_step pIdx) e).all_cards
        = e.all_cards := by
    intro cards
    induction cards with
    | nil =>
        intro e _
        rfl
    | cons c rest ih =>
        intro e hp
        rw [List.foldl_cons]
        have hstep := Engine.force_discard_step_all_cards pIdx e c hp
        rw [ih _ (by rw [hstep.2]; exact hp), hstep.1]
  intro cards e hp
  exact key cards e hp

/-- C8: after every public engine operation the shipped code can
execute, the combined multiset of cards in the deck, the discard pile
and all players' hands is constant in size and composition.  play_card
leaves the whole engine untouched (both of its return paths fire before
any mutation, and for an in-hand card it raises inside can_play_card
before the mutations of engine.py:178-179); a draw moves one card from
the deck — reshuffled from the discard pile when needed — into the
hand; a forced discard moves cards from the hand to the discard pile;
advance_turn raises at engine.py:336 before mutating; and skip_defense
does not mutate when no defense is pending, `pending_defense` being
False in every state the shipped code can produce (its only True
assignment, engine.py:229, is unreachable). -/
theorem engine_ops_conserve_cards (e : Engine) (pIdx : Nat) (card : Card)
    (tp : Option Nat) (torg : Option String) (cards : List Card)
    (hp : pIdx < e.players.length)
    (hsh : ∀ l, (e.shuffle l).Perm l) :
    (e.play_card pIdx card tp torg).1 = e ∧
    (e.draw_card_for_player pIdx).1.all_cards = e.all_cards ∧
    (e.force_discard pIdx cards).1.all_cards = e.all_cards ∧
    e.advance_turn = (e, Except.error (PyError.attributeError "DRAW")) ∧
    (e.pending_defense = false → (e.skip_defense).1 = e) := by
  refine ⟨?_, e.draw_card_for_player_all_cards pIdx hp hsh,
    Engine.force_discard_all_cards pIdx cards e hp, rfl, ?_⟩
  · rcases Engine.play_card_cases e pIdx card tp torg with ⟨_, hpc⟩ | ⟨_, hpc⟩ <;>
      rw [hpc]
  · intro hpd
    unfold Engine.skip_defense
    rw [hpd]
    rfl

/-- Witness for C8 at a concrete two-player engine. -/
theorem engine_ops_conserve_cards_witness :
    (engineC2.play_card 0 heartAttackC2 none none).1 = engineC2 ∧
    (engineC2.draw_card_for_player 0).1.all_cards = engineC2.all_cards ∧
    (engineC2.force_discard 0 [heartAttackC2]).1.all_cards =
      engineC2.all_cards ∧
    engineC2.advance_turn =
      (engineC2, Except.error (PyError.attributeError "DRAW")) ∧
    (engineC2.skip_defense).1 = engineC2 := by
  have W := engine_ops_conserve_cards engineC2 0 heartAttackC2 none none
    [heartAttackC2] (by decide) (fun l => List.Perm.refl l)
  exact ⟨W.1, W.2.1, W.2.2.1, W.2.2.2.1, W.2.2.2.2 rfl⟩

end OrganAttack
